import Mathlib

/-!
Verification development for the `tautulli_recently_watched_collection`
repository.  The Python source is shallowly embedded: pure string processing
is translated to functions on `String`/`List Char`, stateful interaction with
the external services (OpenAI, Plex, Radarr, TMDB, the filesystem) is
abstracted into environment records whose fields are the fallible calls the
code makes (`Except Err _` results), and the side effects the code performs
are collected in explicit effect traces.
-/

/-! ## Python string primitives (shallow models)

`pyIsSpace` models the ASCII whitespace stripped by Python's `str.strip()`
(and matched by `\s` in `re` for ASCII input); `pyLower` models `str.lower()`
for ASCII letters; `stripList` models `str.strip(chars)` as removing a
maximal prefix and suffix of characters satisfying the predicate.
-/

def pyIsSpace (c : Char) : Bool :=
  c = ' ' || c = '\t' || c = '\n' || c = '\r' || c = '\x0b' || c = '\x0c'

def stripList (p : Char → Bool) (l : List Char) : List Char :=
  ((l.dropWhile p).reverse.dropWhile p).reverse

def pyStrip (s : String) : String :=
  ⟨stripList pyIsSpace s.data⟩

def pyLower (s : String) : String :=
  ⟨s.data.map Char.toLower⟩

/-! ## `chatgpt_utils.py` -/

/-- Model of the regex substitution `re.sub(r"^[\d]+\s*[\.\)\-]\s*", "", line)`
from `normalize_title` (`chatgpt_utils.py:11`): strip a leading run of digits
followed by optional whitespace, one of `.` `)` `-`, and optional whitespace.
The character classes are disjoint, so the greedy match is deterministic. -/
def stripEnum (l : List Char) : List Char :=
  if l.takeWhile Char.isDigit = [] then l
  else
    match (l.dropWhile Char.isDigit).dropWhile pyIsSpace with
    | c :: rest => if c = '.' || c = ')' || c = '-' then rest.dropWhile pyIsSpace else l
    | [] => l

/-- `normalize_title` (`chatgpt_utils.py:9-13`): strip whitespace, strip a
leading enumeration marker, strip the characters `-`, `•`, ` ` from both
ends, strip whitespace again. -/
def normalize_title (line : String) : String :=
  ⟨stripList pyIsSpace
    (stripList (fun c => c = '-' || c = '•' || c = ' ')
      (stripEnum (stripList pyIsSpace line.data)))⟩

/-- The accumulation loop shared by `get_related_movies`
(`chatgpt_utils.py:39-52`) and `get_contrast_movies`
(`chatgpt_utils.py:87-99`): normalize each line, drop empties, drop
case-insensitive duplicates (`seen` holds lowercased accepted titles), drop
titles shorter than 3 characters. -/
def suggestLoop : List String → List String → List String
  | [], _ => []
  | line :: rest, seen =>
    let t := normalize_title line
    if t = "" then suggestLoop rest seen
    else if pyLower t ∈ seen then suggestLoop rest seen
    else if t.length < 3 then suggestLoop rest seen
    else t :: suggestLoop rest (pyLower t :: seen)

/-- Post-processing of the raw generative-API response (given as its list of
lines, the result of `raw.splitlines()`), including the final
`movies[:max_results]` truncation. -/
def suggestPost (lines : List String) (max_results : Nat) : List String :=
  (suggestLoop lines []).take max_results

/-! ## `plex_utils.py` and the reconciliation pipeline (`main.py`,
`tautulli_change_of_taste_collection.py`)

External calls are fields of `ReconcileEnv`; `Err` abstracts a Python
exception (only its presence matters to control flow).
-/

abbrev Err := String

structure PlexMovie where
  title : String
  ratingKey : Nat
  year : Option Int
deriving DecidableEq

structure CollEntry where
  title : String
  rating_key : String
  year : Option Int
deriving DecidableEq

structure RunStats where
  found_in_plex : Nat
  missing_in_plex : Nat
  saved_to_json : Bool
  sent_to_radarr : Nat
deriving DecidableEq

structure ReconcileEnv where
  /-- The raw generative-API response for `get_related_movies`, already split
  into lines (`resp...content.splitlines()`), or the API error. -/
  chatRelated : String → Except Err (List String)
  /-- Same for `get_contrast_movies`. -/
  chatContrast : String → Except Err (List String)
  /-- `library().search(title)` in `plex_utils.py`. -/
  plexSearch : String → Except Err (List PlexMovie)
  /-- `json.dump` to the named snapshot file (`save_collection_to_json`). -/
  writeJson : String → List CollEntry → Except Err Unit
  /-- The whole `radarr_process_missing_titles(titles, tags)` call as seen
  from the pipeline (modeled in detail separately below). -/
  radarr : List String → List String → Except Err Unit

/-- `get_related_movies` (`chatgpt_utils.py:16-53`): API call, then the
line-by-line post-processing. An API failure propagates. -/
def get_related_movies (env : ReconcileEnv) (movie_name : String)
    (max_results : Nat) : Except Err (List String) :=
  match env.chatRelated movie_name with
  | .error e => .error e
  | .ok rawLines => .ok (suggestPost rawLines max_results)

/-- `get_contrast_movies` (`chatgpt_utils.py:55-100`): identical
post-processing, different upstream request. -/
def get_contrast_movies (env : ReconcileEnv) (movie_name : String)
    (max_results : Nat) : Except Err (List String) :=
  match env.chatContrast movie_name with
  | .error e => .error e
  | .ok rawLines => .ok (suggestPost rawLines max_results)

/-- `find_plex_movie_by_title` (`plex_utils.py:19-24`): first search result
whose title matches case-insensitively, else `None`. -/
def find_plex_movie_by_title (env : ReconcileEnv) (title : String) :
    Except Err (Option PlexMovie) :=
  match env.plexSearch title with
  | .error e => .error e
  | .ok results => .ok (results.find? (fun m => pyLower m.title == pyLower title))

/-- The Plex-first pass shared verbatim by `main.py:56-78` and
`tautulli_change_of_taste_collection.py:53-75`: for each recommendation, a
found movie is appended to `collection_movies`; a missing movie — or one
whose lookup raised — is appended (stripped) to `missing_in_plex` unless its
stripped lowercased key is empty or already in `missing_seen`. -/
def plexPass (env : ReconcileEnv) :
    List String → List String → List CollEntry × List String
  | [], _ => ([], [])
  | title :: rest, missing_seen =>
    match find_plex_movie_by_title env title with
    | .ok (some plex_movie) =>
      let r := plexPass env rest missing_seen
      ({ title := plex_movie.title, rating_key := toString plex_movie.ratingKey,
         year := plex_movie.year } :: r.1, r.2)
    | .ok none =>
      let key := pyLower (pyStrip title)
      if key ≠ "" ∧ key ∉ missing_seen then
        let r := plexPass env rest (key :: missing_seen)
        (r.1, pyStrip title :: r.2)
      else plexPass env rest missing_seen
    | .error _ =>
      let key := pyLower (pyStrip title)
      if key ≠ "" ∧ key ∉ missing_seen then
        let r := plexPass env rest (key :: missing_seen)
        (r.1, pyStrip title :: r.2)
      else plexPass env rest missing_seen

/-- The extra order-preserving case-insensitive dedup applied to the missing
list in `tautulli_change_of_taste_collection.py:77-86`. -/
def dedupMissing : List String → List String → List String
  | [], _ => []
  | t :: rest, seen =>
    if pyLower t ∈ seen then dedupMissing rest seen
    else t :: dedupMissing rest (pyLower t :: seen)

def RADARR_TAGS_recent : List String := ["movies", "due-to-previously-watched"]

def RADARR_TAGS_change : List String := ["movies", "change-of-taste"]

def JSON_FILE_recent : String := "recently_watched_collection.json"

def JSON_FILE_change : String := "change_of_taste_collection.json"

/-- `run_recently_watched_playlist` (`main.py:37-120`).  The snapshot file's
contents are threaded explicitly (`none` = file absent); the function returns
the stats dict and the new file contents, or the propagated exception. A
write is attempted only when `collection_movies` is non-empty; a write
failure re-raises; a Radarr failure is swallowed (`sent_to_radarr` stays 0). -/
def run_recently_watched_playlist (env : ReconcileEnv)
    (snapshot : Option (List CollEntry)) (movie_name : String) :
    Except Err (RunStats × Option (List CollEntry)) :=
  match get_related_movies env movie_name 15 with
  | .error e => .error e
  | .ok recommendations =>
    let r := plexPass env recommendations []
    let collection_movies := r.1
    let missing_in_plex := r.2
    match (if collection_movies.isEmpty then Except.ok (false, snapshot)
           else match env.writeJson JSON_FILE_recent collection_movies with
                | .error e => Except.error e
                | .ok _ => Except.ok (true, some collection_movies)) with
    | .error e => .error e
    | .ok (saved_to_json, snapshot1) =>
      let sent_to_radarr :=
        if missing_in_plex.isEmpty then 0
        else match env.radarr missing_in_plex RADARR_TAGS_recent with
             | .ok _ => missing_in_plex.length
             | .error _ => 0
      .ok ({ found_in_plex := collection_movies.length,
             missing_in_plex := missing_in_plex.length,
             saved_to_json := saved_to_json,
             sent_to_radarr := sent_to_radarr }, snapshot1)

/-- `run_change_of_taste_collection`
(`tautulli_change_of_taste_collection.py:34-128`): same shape, with the extra
dedup of the missing list and its own snapshot file and tag set. -/
def run_change_of_taste_collection (env : ReconcileEnv)
    (snapshot : Option (List CollEntry)) (movie_name : String)
    (max_results : Nat) : Except Err (RunStats × Option (List CollEntry)) :=
  match get_contrast_movies env movie_name max_results with
  | .error e => .error e
  | .ok recommendations =>
    let r := plexPass env recommendations []
    let collection_movies := r.1
    let missing_in_plex := dedupMissing r.2 []
    match (if collection_movies.isEmpty then Except.ok (false, snapshot)
           else match env.writeJson JSON_FILE_change collection_movies with
                | .error e => Except.error e
                | .ok _ => Except.ok (true, some collection_movies)) with
    | .error e => .error e
    | .ok (saved_to_json, snapshot1) =>
      let sent_to_radarr :=
        if missing_in_plex.isEmpty then 0
        else match env.radarr missing_in_plex RADARR_TAGS_change with
             | .ok _ => missing_in_plex.length
             | .error _ => 0
      .ok ({ found_in_plex := collection_movies.length,
             missing_in_plex := missing_in_plex.length,
             saved_to_json := saved_to_json,
             sent_to_radarr := sent_to_radarr }, snapshot1)

/-! ## `radarr_utils.py`

Each HTTP call is an `Except Err _` field of `RadarrEnv`.  Mutating calls
(`POST /tag`, `PUT /movie/{id}`, `POST /movie`) are additionally recorded in
an explicit trace of `REffect`s when they are issued, so the theorems can
speak about which requests the code sends.  A function returns its trace
together with `none` (normal return) or `some e` (a propagating exception).
-/

structure RMovie where
  id : Nat
  title : String
  tmdbId : Option Int
  monitored : Bool
deriving DecidableEq

structure RTag where
  id : Nat
  label : String
deriving DecidableEq

/-- A result of `GET /api/v3/movie/lookup` (`radarr_lookup_movie`): the code
reads `title` (with the searched title as default), `tmdbId` and `year`. -/
structure RLookupResult where
  title : Option String
  tmdbId : Option Int
  year : Option Int
deriving DecidableEq

/-- A best-match result of the TMDB search (`search_tmdb`). -/
structure TmdbResult where
  id : Int
  title : String
  release_date : Option String
deriving DecidableEq

/-- The payload of `POST /api/v3/movie` in `radarr_add_and_search`. -/
structure AddPayload where
  title : String
  tmdbId : Int
  year : Option Int
  qualityProfileId : Nat
  rootFolderPath : String
  monitored : Bool
  searchForMovie : Bool
  tags : List Nat
deriving DecidableEq

inductive REffect
  | createTagE (label : String)
  | putMovieE (movie : RMovie)
  | postMovieE (payload : AddPayload)
deriving DecidableEq

def REffect.isPostMovie : REffect → Bool
  | .postMovieE _ => true
  | _ => false

structure RadarrEnv where
  /-- `GET /api/v3/tag`. -/
  getTags : Except Err (List RTag)
  /-- `POST /api/v3/tag` (returns the created tag id). -/
  createTag : String → Except Err Nat
  /-- `GET /api/v3/movie` (`_radarr_get_all_movies`). -/
  getAllMovies : Except Err (List RMovie)
  /-- `PUT /api/v3/movie/{id}`. -/
  putMovie : RMovie → Except Err Unit
  /-- `POST /api/v3/movie`. -/
  postMovie : AddPayload → Except Err Unit
  /-- `GET /api/v3/movie/lookup` (`radarr_lookup_movie`), `none` = no result. -/
  lookupMovie : String → Except Err (Option RLookupResult)
  /-- TMDB `search/movie` (`search_tmdb`), `none` = no result. -/
  searchTmdb : String → Except Err (Option TmdbResult)
  /-- `config["radarr"]["root_folder"]`. -/
  rootFolder : String

/-- `get_or_create_tag` (`radarr_utils.py:16-30`): case-insensitive label
match against the tag list, creating the tag if absent. -/
def get_or_create_tag (env : RadarrEnv) (tag_name : String) :
    List REffect × Except Err Nat :=
  match env.getTags with
  | .error e => ([], .error e)
  | .ok tags =>
    match tags.find? (fun t => pyLower t.label == pyLower tag_name) with
    | some t => ([], .ok t.id)
    | none =>
      ([.createTagE tag_name],
       match env.createTag tag_name with
       | .ok i => .ok i
       | .error e => .error e)

/-- The list comprehension `[get_or_create_tag(t) for t in tag_names]` at
`radarr_utils.py:89`; any failure propagates. -/
def resolveTags (env : RadarrEnv) : List String → List REffect × Except Err (List Nat)
  | [] => ([], .ok [])
  | n :: rest =>
    match get_or_create_tag env n with
    | (e1, .error e) => (e1, .error e)
    | (e1, .ok i) =>
      match resolveTags env rest with
      | (e2, .error e) => (e1 ++ e2, .error e)
      | (e2, .ok ids) => (e1 ++ e2, .ok (i :: ids))

/-- `radarr_find_movie` (`radarr_utils.py:39-48`): first catalog movie whose
title matches case-insensitively. The catalog fetch can raise. -/
def radarr_find_movie (env : RadarrEnv) (title : String) :
    Except Err (Option RMovie) :=
  match env.getAllMovies with
  | .error e => .error e
  | .ok movies => .ok (movies.find? (fun m => pyLower m.title == pyLower title))

/-- `radarr_find_movie_by_tmdb_id` (`radarr_utils.py:172-176`). -/
def radarr_find_movie_by_tmdb_id (env : RadarrEnv) (tmdb_id : Int) :
    Except Err (Option RMovie) :=
  match env.getAllMovies with
  | .error e => .error e
  | .ok movies => .ok (movies.find? (fun m => m.tmdbId == some tmdb_id))

/-- `radarr_set_monitored` (`radarr_utils.py:55-74`): a no-op when the flag
already has the requested value, otherwise a `PUT` of the full movie object
with the flag changed (recorded in the trace even when the request errors). -/
def radarr_set_monitored (env : RadarrEnv) (movie : RMovie) (monitored : Bool) :
    List REffect × Option Err :=
  if movie.monitored = monitored then ([], none)
  else
    let updated := { movie with monitored := monitored }
    ([.putMovieE updated],
     match env.putMovie updated with
     | .ok _ => none
     | .error e => some e)

/-- `int(tmdb["release_date"][:4])` at `radarr_utils.py:108`; a non-numeric
prefix raises `ValueError`. -/
def parseYear (release_date : String) : Except Err Int :=
  match (⟨release_date.data.take 4⟩ : String).toInt? with
  | some y => .ok y
  | none => .error "invalid year"

/-- Python truthiness of `tmdb_id` in `if not tmdb_id:` at
`radarr_utils.py:110`: `None` and `0` are falsy. -/
def truthyId : Option Int → Option Int
  | none => none
  | some i => if i = 0 then none else some i

/-- The resolution step of `radarr_add_and_search` (`radarr_utils.py:91-108`):
Radarr's own lookup (its failure caught, treated as no result), falling back
to TMDB (whose failure, and a bad release date, propagate).  Returns
`(resolved_title, tmdb_id, year)`, or `none` for the early return when TMDB
has no result. -/
def resolveMovieInfo (env : RadarrEnv) (title : String) :
    Except Err (Option (String × Option Int × Option Int)) :=
  let looked_up :=
    match env.lookupMovie title with
    | .ok r => r
    | .error _ => none
  match looked_up with
  | some lk => .ok (some (lk.title.getD title, lk.tmdbId, lk.year))
  | none =>
    match env.searchTmdb title with
    | .error e => .error e
    | .ok none => .ok none
    | .ok (some tmdb) =>
      match (match tmdb.release_date with
             | some rd => if rd ≠ "" then (parseYear rd).map some else .ok none
             | none => Except.ok none) with
      | .error e => .error e
      | .ok year => .ok (some (tmdb.title, some tmdb.id, year))

/-- `radarr_add_and_search` (`radarr_utils.py:88-134`): resolve tags, resolve
the movie, guard against duplicate adds by tmdbId (force-monitoring the
existing movie instead), else `POST` the new movie. -/
def radarr_add_and_search (env : RadarrEnv) (title : String)
    (tag_names : List String) : List REffect × Option Err :=
  match resolveTags env tag_names with
  | (effs, .error e) => (effs, some e)
  | (effs, .ok tag_ids) =>
    match resolveMovieInfo env title with
    | .error e => (effs, some e)
    | .ok none => (effs, none)
    | .ok (some (resolved_title, tmdb_id_opt, year)) =>
      match truthyId tmdb_id_opt with
      | none => (effs, none)
      | some tmdb_id =>
        match radarr_find_movie_by_tmdb_id env tmdb_id with
        | .error e => (effs, some e)
        | .ok (some existing_by_id) =>
          let r := radarr_set_monitored env existing_by_id true
          (effs ++ r.1, r.2)
        | .ok none =>
          let payload : AddPayload :=
            { title := resolved_title, tmdbId := tmdb_id, year := year,
              qualityProfileId := 1, rootFolderPath := env.rootFolder,
              monitored := true, searchForMovie := true, tags := tag_ids }
          (effs ++ [.postMovieE payload],
           match env.postMovie payload with
           | .ok _ => none
           | .error e => some e)

/-- The per-title body of the loop in `radarr_process_missing_titles`
(`radarr_utils.py:143-154`): the existence check `radarr_find_movie(title)`
is outside any `try`, so its failure propagates; failures of
`radarr_set_monitored` and `radarr_add_and_search` are caught and logged. -/
def processOneTitle (env : RadarrEnv) (title : String)
    (tag_names : List String) : List REffect × Option Err :=
  match radarr_find_movie env title with
  | .error e => ([], some e)
  | .ok (some existing) => ((radarr_set_monitored env existing true).1, none)
  | .ok none => ((radarr_add_and_search env title tag_names).1, none)

/-- `radarr_process_missing_titles` (`radarr_utils.py:137-154`): the loop
over titles. Returns the per-title traces for the titles whose iteration
completed, and `some e` if an uncaught exception aborted the loop. -/
def radarr_process_missing_titles (env : RadarrEnv) :
    List String → List String → List (String × List REffect) × Option Err
  | [], _ => ([], none)
  | title :: rest, tag_names =>
    match processOneTitle env title tag_names with
    | (_, some e) => ([], some e)
    | (effs, none) =>
      let r := radarr_process_missing_titles env rest tag_names
      ((title, effs) :: r.1, r.2)

/-! ## `refresher.py`

Plex mutations are recorded in a `RefEffect` trace; `PErr` distinguishes the
`BadRequest` exceptions the code branches on from any other exception.
-/

structure PlexItem where
  title : String
  itemType : String
  ratingKey : Nat
deriving DecidableEq

inductive PErr
  | badRequest (msg : String)
  | otherErr (msg : String)
deriving DecidableEq

/-- Outcome of the `section.collection(name)` / `collection.items()` probe at
`refresher.py:139-150`: found with its items; found but `items()` raised
(generic handler leaves `collection` bound and `existing_items = []`); the
`NotFound` branch; or another exception from `collection()` itself (both of
the last two leave `collection = None`, `existing_items = []`). -/
inductive CollectionState
  | found (items : List PlexItem)
  | itemsFetchFailed
  | notFound
  | lookupFailed
deriving DecidableEq

/-- Whether the local `collection` variable is truthy after the probe. -/
def CollectionState.handle : CollectionState → Bool
  | .found _ => true
  | .itemsFetchFailed => true
  | .notFound => false
  | .lookupFailed => false

/-- The `existing_items` list after the probe. -/
def CollectionState.existing : CollectionState → List PlexItem
  | .found items => items
  | _ => []

/-- One record of a Collection Snapshot file as the refresher reads it
(`movie_data.get("title", "Unknown")`, `movie_data.get("rating_key")`). -/
structure JsonEntry where
  title : Option String
  rating_key : Option String
deriving DecidableEq

/-- The JSON value shapes `load_collection_json` distinguishes: an array of
plain strings, an array of records, or a non-array document. -/
inductive RJson
  | arrOfStrings (titles : List String)
  | arrOfRecords (entries : List JsonEntry)
  | nonArray
deriving DecidableEq

/-- State of a snapshot file on disk: absent, unparseable, or parsed JSON. -/
inductive SnapshotFile
  | missing
  | invalid
  | content (j : RJson)
deriving DecidableEq

inductive RefEffect
  | removeItemsE (items : List PlexItem)
  | perItemRemoveE (item : PlexItem)
  | createCollectionE (name : String) (items : List PlexItem)
  | addItemsE (items : List PlexItem)
deriving DecidableEq

structure RefStats where
  added : Nat
  failed : Nat
  filtered : Nat
deriving DecidableEq

structure RefEnv where
  /-- `load_config()`. -/
  loadConfig : Except Err Unit
  /-- `PlexServer(url, token, timeout=30)`. -/
  connectPlex : Except Err Unit
  /-- `library()` (loading the configured section). -/
  loadSection : Except Err Unit
  /-- Reading + parsing the named snapshot file. -/
  readFile : String → SnapshotFile
  /-- `random.shuffle` on the loaded list (the permutation drawn this run). -/
  shuffle : List JsonEntry → List JsonEntry
  /-- The `section.collection(name)` / `.items()` probe. -/
  collectionLookup : String → CollectionState
  /-- `section.fetchItem(int(rating_key))` (with the `int` conversion). -/
  fetchItem : String → Except Err PlexItem
  /-- `section.search(title)`. -/
  searchTitle : String → Except Err (List PlexItem)
  /-- `collection.removeItems(items)`. -/
  removeItems : List PlexItem → Except PErr Unit
  /-- Per-item collection-tag removal in the fallback loop. -/
  perItemRemove : String → PlexItem → Except Err Unit
  /-- `section.createCollection(name, items=...)`. -/
  createCollection : String → List PlexItem → Except PErr Unit
  /-- `collection.addItems(items)`. -/
  addItems : List PlexItem → Except PErr Unit

/-- `load_collection_json` (`refresher.py:58-90`): `None` on a missing file,
a JSON parse error, or a non-array document; an array of strings is converted
to records with only a title. -/
def load_collection_json (env : RefEnv) (json_file : String) :
    Option (List JsonEntry) :=
  match env.readFile json_file with
  | .missing => none
  | .invalid => none
  | .content .nonArray => none
  | .content (.arrOfStrings titles) =>
    some (titles.map fun t => { title := some t, rating_key := none })
  | .content (.arrOfRecords entries) => some entries

/-- `fetch_movie_by_rating_key` (`refresher.py:93-99`): any exception gives
`None`. -/
def fetch_movie_by_rating_key (env : RefEnv) (rating_key : String) :
    Option PlexItem :=
  match env.fetchItem rating_key with
  | .ok m => some m
  | .error _ => none

/-- `find_movie_by_title` (`refresher.py:102-110`): first case-insensitive
title match among search results; a search exception gives `None`. -/
def find_movie_by_title (env : RefEnv) (title : String) : Option PlexItem :=
  match env.searchTitle title with
  | .ok results => results.find? (fun m => pyLower m.title == pyLower title)
  | .error _ => none

/-- Python truthiness of `if rating_key:` at `refresher.py:167`. -/
def truthyStr : Option String → Option String
  | none => none
  | some s => if s = "" then none else some s

/-- The fetch-and-filter loop of `apply_collection_to_plex`
(`refresher.py:158-187`): resolve each record (rating key first, then title),
partition into movie-kind items (`valid`), unresolvable titles (`failed`) and
non-movie items (`filtered`, with their lowercased kind). -/
def fetchLoop (env : RefEnv) :
    List JsonEntry → List PlexItem × List String × List (String × String)
  | [] => ([], [], [])
  | movie_data :: rest =>
    let title := movie_data.title.getD "Unknown"
    let fromKey :=
      match truthyStr movie_data.rating_key with
      | some rk => fetch_movie_by_rating_key env rk
      | none => none
    let movie :=
      match fromKey with
      | some m => some m
      | none => find_movie_by_title env title
    let r := fetchLoop env rest
    match movie with
    | some m =>
      if pyLower m.itemType = "movie" then (m :: r.1, r.2.1, r.2.2)
      else (r.1, r.2.1, (title, pyLower m.itemType) :: r.2.2)
    | none => (r.1, title :: r.2.1, r.2.2)

/-- `"mix media types" in str(e).lower()` at `refresher.py:266/290`. -/
def mentionsMixedTypes (msg : String) : Bool :=
  ((pyLower msg).data.tails).any (fun t => "mix media types".data.isPrefixOf t)

def PErr.message : PErr → String
  | .badRequest m => m
  | .otherErr m => m

/-- The add phase of `apply_collection_to_plex` (`refresher.py:252-305`):
create the collection when the probe found none, else bulk-add; on a
`BadRequest` mentioning mixed media types, retry with movie-kind items only;
every other failure is caught by the outer handler, which sets
`failed_count = len(valid) - added_count`.  Returns
`(trace, added_count, failed_count)`. -/
def addPhase (env : RefEnv) (collection_name : String) (hasCollection : Bool)
    (valid_movies : List PlexItem) : List RefEffect × Nat × Nat :=
  if !hasCollection then
    match env.createCollection collection_name valid_movies with
    | .ok _ => ([.createCollectionE collection_name valid_movies], valid_movies.length, 0)
    | .error (.badRequest msg) =>
      if mentionsMixedTypes msg then
        let movie_only := valid_movies.filter (fun m => pyLower m.itemType == "movie")
        if movie_only ≠ [] then
          match env.createCollection collection_name movie_only with
          | .ok _ =>
            ([.createCollectionE collection_name valid_movies,
              .createCollectionE collection_name movie_only], movie_only.length, 0)
          | .error _ =>
            ([.createCollectionE collection_name valid_movies,
              .createCollectionE collection_name movie_only], 0, valid_movies.length)
        else ([.createCollectionE collection_name valid_movies], 0, valid_movies.length)
      else ([.createCollectionE collection_name valid_movies], 0, valid_movies.length)
    | .error (.otherErr _) =>
      ([.createCollectionE collection_name valid_movies], 0, valid_movies.length)
  else
    match env.addItems valid_movies with
    | .ok _ => ([.addItemsE valid_movies], valid_movies.length, 0)
    | .error (.badRequest msg) =>
      if mentionsMixedTypes msg then
        let movie_only := valid_movies.filter (fun m => pyLower m.itemType == "movie")
        if movie_only ≠ [] then
          match env.addItems movie_only with
          | .ok _ => ([.addItemsE valid_movies, .addItemsE movie_only], movie_only.length, 0)
          | .error _ =>
            ([.addItemsE valid_movies, .addItemsE movie_only], 0, valid_movies.length)
        else ([.addItemsE valid_movies], 0, valid_movies.length)
      else ([.addItemsE valid_movies], 0, valid_movies.length)
    | .error (.otherErr _) => ([.addItemsE valid_movies], 0, valid_movies.length)

/-- `apply_collection_to_plex` (`refresher.py:113-311`).  Returns the stats
dict and the trace of Plex mutations issued.  The re-read of the collection
object right after a successful create (`refresher.py:260`) is modeled as
non-failing. -/
def apply_collection_to_plex (env : RefEnv) (collection_name : String)
    (movies : List JsonEntry) (dry_run : Bool) : RefStats × List RefEffect :=
  if movies = [] then ({ added := 0, failed := 0, filtered := 0 }, [])
  else
    let cst := env.collectionLookup collection_name
    let existing_items := cst.existing
    let r := fetchLoop env movies
    let valid_movies := r.1
    let failed_movies := r.2.1
    let filtered_non_movies := r.2.2
    if valid_movies = [] then
      ({ added := 0, failed := failed_movies.length,
         filtered := filtered_non_movies.length }, [])
    else if dry_run then
      ({ added := valid_movies.length, failed := failed_movies.length,
         filtered := filtered_non_movies.length }, [])
    else
      let removeEffs : List RefEffect :=
        if existing_items ≠ [] ∧ cst.handle then
          match env.removeItems existing_items with
          | .ok _ => [.removeItemsE existing_items]
          | .error (.badRequest _) =>
            .removeItemsE existing_items ::
              existing_items.map (fun item => .perItemRemoveE item)
          | .error (.otherErr _) => [.removeItemsE existing_items]
        else []
      let a := addPhase env collection_name cst.handle valid_movies
      ({ added := a.2.1, failed := a.2.2 + failed_movies.length,
         filtered := filtered_non_movies.length }, removeEffs ++ a.1)

structure TotalStats where
  collections_processed : Nat
  total_added : Nat
  total_failed : Nat
  total_filtered : Nat
deriving DecidableEq

/-- The `COLLECTIONS` constant (`refresher.py:46-55`): (name, json_file). -/
def COLLECTIONS : List (String × String) :=
  [("Based on your recently watched movie", "recently_watched_collection.json"),
   ("Change of Taste", "change_of_taste_collection.json")]

/-- The per-collection loop of the refresher's `main`
(`refresher.py:421-470`): a missing/invalid/empty snapshot skips the
collection (`continue`); otherwise the loaded list is shuffled, applied, and
the stats accumulated. -/
def processCollections (env : RefEnv) (dry_run : Bool) :
    List (String × String) → TotalStats
  | [] => { collections_processed := 0, total_added := 0, total_failed := 0,
            total_filtered := 0 }
  | (collection_name, json_file) :: rest =>
    match load_collection_json env json_file with
    | none => processCollections env dry_run rest
    | some movies =>
      if movies = [] then processCollections env dry_run rest
      else
        let stats := (apply_collection_to_plex env collection_name
          (env.shuffle movies) dry_run).1
        let t := processCollections env dry_run rest
        { collections_processed := t.collections_processed + 1,
          total_added := t.total_added + stats.added,
          total_failed := t.total_failed + stats.failed,
          total_filtered := t.total_filtered + stats.filtered }

/-- The refresher's `main` (`refresher.py:334-496`): config load, Plex
connection and section load failures abort with exit code 1; otherwise the
collection loop (whose bodies catch their own failures) runs to completion
and `main` returns 0.  Returns the exit code and the aggregate stats. -/
def refresher_main (env : RefEnv) (dry_run : Bool) : Int × TotalStats :=
  match env.loadConfig with
  | .error _ => (1, { collections_processed := 0, total_added := 0,
                      total_failed := 0, total_filtered := 0 })
  | .ok _ =>
    match env.connectPlex with
    | .error _ => (1, { collections_processed := 0, total_added := 0,
                        total_failed := 0, total_filtered := 0 })
    | .ok _ =>
      match env.loadSection with
      | .error _ => (1, { collections_processed := 0, total_added := 0,
                          total_failed := 0, total_filtered := 0 })
      | .ok _ => (0, processCollections env dry_run COLLECTIONS)

/-! ## The reconcile CLI entry point (`main.py:123-290`) -/

structure CliConfig where
  runRefresher : Bool
deriving DecidableEq

/-- Outcome of the chained in-process refresher call
(`main.py:234-268`): a returned exit code, a raised exception, or a
`KeyboardInterrupt`. -/
inductive RefOutcome
  | exits (code : Int)
  | raises
  | interrupted
deriving DecidableEq

structure CliEnv where
  argv : List String
  loadConfig : Except Err CliConfig
  runRecent : String → Except Err RunStats
  runChange : String → Except Err RunStats
  refresher : RefOutcome

/-- `main` (`main.py:123-290`): too few arguments or a config-load failure
give exit code 1; each flavor's failure sets the exit code to 1 but the other
flavor still runs; every outcome of the optional chained refresher — nonzero
exit code, exception, `KeyboardInterrupt` — is caught and only logged, so it
never changes the exit code. -/
def cli_main (env : CliEnv) : Int :=
  if env.argv.length < 2 then 1
  else
    match env.loadConfig with
    | .error _ => 1
    | .ok config =>
      let movie_name := (env.argv.get? 1).getD ""
      let exit1 : Int :=
        match env.runRecent movie_name with
        | .ok _ => 0
        | .error _ => 1
      let exit2 : Int :=
        match env.runChange movie_name with
        | .ok _ => exit1
        | .error _ => 1
      if config.runRefresher then
        match env.refresher with
        | .exits _ => exit2
        | .raises => exit2
        | .interrupted => exit2
      else exit2

/-! ## Derived definitions and concrete environments used by the
witness and counterexample theorems -/

/-- The collection entry produced for a candidate when its lookup finds a
movie; `none` when the lookup reports absent or raises. -/
def presentEntry (env : ReconcileEnv) (title : String) : Option CollEntry :=
  match find_plex_movie_by_title env title with
  | .ok (some pm) =>
    some { title := pm.title, rating_key := toString pm.ratingKey, year := pm.year }
  | .ok none => none
  | .error _ => none

/-- The trace `radarr_set_monitored` produces when forcing
`monitored := true`: nothing when the flag is already set, else one `PUT`. -/
def monitorEffects (m : RMovie) : List REffect :=
  if m.monitored then [] else [.putMovieE { m with monitored := true }]

def plexMatrix : PlexMovie := { title := "The Matrix", ratingKey := 123, year := some 1999 }

def prevSnap : List CollEntry := [{ title := "Old Movie", rating_key := "7", year := none }]

/-- A run in which every Plex lookup raises (transient outage) and the
snapshot write would fail if it were ever attempted. -/
def envAllError : ReconcileEnv :=
  { chatRelated := fun _ => .ok ["The Matrix", "Paprika"],
    chatContrast := fun _ => .ok ["The Matrix", "Paprika"],
    plexSearch := fun _ => .error "plex timeout",
    writeJson := fun _ _ => .error "disk full",
    radarr := fun _ _ => .ok () }

/-- A run in which "The Matrix" is in Plex, the lookup for anything else
raises, and the Radarr call fails. -/
def envMatrixOnly : ReconcileEnv :=
  { chatRelated := fun _ => .ok ["The Matrix", "Paprika"],
    chatContrast := fun _ => .ok ["The Matrix", "Paprika"],
    plexSearch := fun t => if pyLower t == "the matrix" then .ok [plexMatrix]
                           else .error "plex timeout",
    writeJson := fun _ _ => .ok (),
    radarr := fun _ _ => .error "radarr down" }

/-- A Radarr environment whose catalog fetch (`GET /api/v3/movie`) raises. -/
def radarrEnvDown : RadarrEnv :=
  { getTags := .ok [],
    createTag := fun _ => .ok 0,
    getAllMovies := .error "connection error",
    putMovie := fun _ => .ok (),
    postMovie := fun _ => .ok (),
    lookupMovie := fun _ => .ok none,
    searchTmdb := fun _ => .ok none,
    rootFolder := "/movies" }

/-- A Radarr catalog movie: "Paprika", unmonitored. -/
def paprikaMovie : RMovie :=
  { id := 5, title := "Paprika", tmdbId := some 4437, monitored := false }

def radarrEnvFlaky : RadarrEnv :=
  { getTags := .error "tag service down",
    createTag := fun _ => .error "tag create failed",
    getAllMovies := .ok [paprikaMovie],
    putMovie := fun _ => .error "put failed",
    postMovie := fun _ => .error "post failed",
    lookupMovie := fun _ => .error "lookup down",
    searchTmdb := fun _ => .error "tmdb down",
    rootFolder := "/movies" }

def radarrPaprikaEnv : RadarrEnv :=
  { getTags := .ok [{ id := 1, label := "movies" }],
    createTag := fun _ => .ok 2,
    getAllMovies := .ok [paprikaMovie],
    putMovie := fun _ => .ok (),
    postMovie := fun _ => .ok (),
    lookupMovie := fun _ => .ok none,
    searchTmdb := fun _ => .ok none,
    rootFolder := "/movies" }

/-- Witness environment for the refresher: the recently-watched snapshot is
missing, the change-of-taste one is valid. -/
def refEnvW : RefEnv :=
  { loadConfig := .ok (),
    connectPlex := .ok (),
    loadSection := .ok (),
    readFile := fun f => if f == "recently_watched_collection.json" then .missing
      else .content (.arrOfRecords [{ title := some "Paprika", rating_key := some "42" }]),
    shuffle := fun l => l,
    collectionLookup := fun _ => .notFound,
    fetchItem := fun rk => if rk == "42" then
        .ok { title := "Paprika", itemType := "movie", ratingKey := 42 }
      else .error "not found",
    searchTitle := fun _ => .ok [],
    removeItems := fun _ => .ok (),
    perItemRemove := fun _ _ => .ok (),
    createCollection := fun _ _ => .ok (),
    addItems := fun _ => .ok () }

def cliEnvW : CliEnv :=
  { argv := ["tautulli_recently_watched_collection.py", "Inception"],
    loadConfig := .ok { runRefresher := true },
    runRecent := fun _ => .ok ⟨1, 1, true, 0⟩,
    runChange := fun _ => .ok ⟨0, 2, false, 2⟩,
    refresher := .raises }

/-! ## String lemmas -/

theorem stripList_eq_rdropWhile (p : Char → Bool) (l : List Char) :
    stripList p l = List.rdropWhile p (l.dropWhile p) := rfl

theorem head_of_dropWhile_not {p : α → Bool} :
    ∀ {l : List α} {c : α}, (l.dropWhile p).head? = some c → p c = false := by
  intro l
  induction l with
  | nil => intro c h; simp [List.dropWhile] at h
  | cons a l ih =>
    intro c h
    by_cases hp : p a
    · rw [List.dropWhile_cons, if_pos hp] at h
      exact ih h
    · rw [List.dropWhile_cons, if_neg hp] at h
      simp only [List.head?_cons, Option.some.injEq] at h
      subst h
      simpa using hp

theorem stripList_idem (p : Char → Bool) (l : List Char) :
    stripList p (stripList p l) = stripList p l := by
  rw [stripList_eq_rdropWhile, stripList_eq_rdropWhile]
  have hd : (List.rdropWhile p (l.dropWhile p)).dropWhile p
      = List.rdropWhile p (l.dropWhile p) := by
    cases hS : List.rdropWhile p (l.dropWhile p) with
    | nil => simp
    | cons c s =>
      have hhead : (l.dropWhile p).head? = some c := by
        obtain ⟨t, ht⟩ := List.rdropWhile_prefix (p := p) (l := l.dropWhile p)
        rw [hS] at ht
        rw [← ht]
        rfl
      have hpc : p c = false := head_of_dropWhile_not hhead
      simp [List.dropWhile_cons, hpc]
  rw [hd, List.rdropWhile_idempotent]

theorem pyStrip_idem (s : String) : pyStrip (pyStrip s) = pyStrip s := by
  simp only [pyStrip, stripList_idem]

theorem normalize_title_strip_fixed (line : String) :
    pyStrip (normalize_title line) = normalize_title line := by
  simp only [normalize_title, pyStrip, stripList_idem]

theorem string_eq_of_data {s t : String} (h : s.data = t.data) : s = t := by
  cases s
  cases t
  exact congrArg String.mk h

theorem pyLower_ne_empty {s : String} (h : s ≠ "") : pyLower s ≠ "" := by
  intro hc
  apply h
  have h1 : s.data.map Char.toLower = ([] : List Char) := congrArg String.data hc
  have h2 : s.data = [] := List.map_eq_nil_iff.mp h1
  exact string_eq_of_data h2

theorem length_ge_ne_empty {s : String} (h : 3 ≤ s.length) : s ≠ "" := by
  intro hc
  rw [hc] at h
  simp at h

/-! ## Properties of the suggestion post-processing (C2) -/

theorem suggestLoop_sublist (lines : List String) :
    ∀ seen, (suggestLoop lines seen).Sublist (lines.map normalize_title) := by
  induction lines with
  | nil => intro seen; simp [suggestLoop]
  | cons line rest ih =>
    intro seen
    simp only [suggestLoop, List.map_cons]
    by_cases h1 : normalize_title line = ""
    · simp only [h1, if_pos rfl]
      exact (ih seen).cons _
    · simp only [if_neg h1]
      by_cases h2 : pyLower (normalize_title line) ∈ seen
      · simp only [if_pos h2]
        exact (ih seen).cons _
      · simp only [if_neg h2]
        by_cases h3 : (normalize_title line).length < 3
        · simp only [if_pos h3]
          exact (ih seen).cons _
        · simp only [if_neg h3]
          exact (ih _).cons₂ _

theorem suggestLoop_mem (lines : List String) :
    ∀ seen, ∀ e ∈ suggestLoop lines seen,
      (∃ l ∈ lines, e = normalize_title l) ∧ 3 ≤ e.length ∧ pyLower e ∉ seen := by
  induction lines with
  | nil => intro seen e he; simp [suggestLoop] at he
  | cons line rest ih =>
    intro seen e he
    simp only [suggestLoop] at he
    by_cases h1 : normalize_title line = ""
    · rw [if_pos h1] at he
      obtain ⟨⟨l, hl, hel⟩, h3, hs⟩ := ih seen e he
      exact ⟨⟨l, List.mem_cons_of_mem _ hl, hel⟩, h3, hs⟩
    · rw [if_neg h1] at he
      by_cases h2 : pyLower (normalize_title line) ∈ seen
      · rw [if_pos h2] at he
        obtain ⟨⟨l, hl, hel⟩, h3, hs⟩ := ih seen e he
        exact ⟨⟨l, List.mem_cons_of_mem _ hl, hel⟩, h3, hs⟩
      · rw [if_neg h2] at he
        by_cases h3 : (normalize_title line).length < 3
        · rw [if_pos h3] at he
          obtain ⟨⟨l, hl, hel⟩, h3', hs⟩ := ih seen e he
          exact ⟨⟨l, List.mem_cons_of_mem _ hl, hel⟩, h3', hs⟩
        · rw [if_neg h3] at he
          rcases List.mem_cons.mp he with he | he
          · subst he
            exact ⟨⟨line, List.mem_cons_self _ _, rfl⟩, Nat.le_of_not_lt h3, h2⟩
          · obtain ⟨⟨l, hl, hel⟩, h3', hs⟩ := ih _ e he
            refine ⟨⟨l, List.mem_cons_of_mem _ hl, hel⟩, h3', fun hc => hs ?_⟩
            exact List.mem_cons_of_mem _ hc

theorem suggestLoop_pairwise (lines : List String) :
    ∀ seen, (suggestLoop lines seen).Pairwise (fun a b => pyLower a ≠ pyLower b) := by
  induction lines with
  | nil => intro seen; simp [suggestLoop]
  | cons line rest ih =>
    intro seen
    simp only [suggestLoop]
    by_cases h1 : normalize_title line = ""
    · rw [if_pos h1]; exact ih seen
    · rw [if_neg h1]
      by_cases h2 : pyLower (normalize_title line) ∈ seen
      · rw [if_pos h2]; exact ih seen
      · rw [if_neg h2]
        by_cases h3 : (normalize_title line).length < 3
        · rw [if_pos h3]; exact ih seen
        · rw [if_neg h3]
          refine List.Pairwise.cons (fun b hb hc => ?_) (ih _)
          have := (suggestLoop_mem rest _ b hb).2.2
          exact this (hc ▸ List.mem_cons_self _ _)

/-- C2: for every raw multi-line generative-API response (given as its list
of lines) and every `max_results`, the suggestion post-processing shared by
`get_related_movies` and `get_contrast_movies` returns at most `max_results`
titles; no two returned titles are equal case-insensitively; every entry is
the normalization (`normalize_title`) of some input line and has length at
least 3; and the output is a sublist of the normalized lines in encounter
order (first occurrence wins). -/
theorem suggest_post_properties (lines : List String) (max_results : Nat) :
    (suggestPost lines max_results).length ≤ max_results
    ∧ (suggestPost lines max_results).Pairwise (fun a b => pyLower a ≠ pyLower b)
    ∧ (∀ e ∈ suggestPost lines max_results,
        (∃ l ∈ lines, e = normalize_title l) ∧ 3 ≤ e.length)
    ∧ (suggestPost lines max_results).Sublist (lines.map normalize_title) := by
  refine ⟨List.length_take_le _ _, ?_, ?_, ?_⟩
  · exact (suggestLoop_pairwise lines []).sublist (List.take_sublist _ _)
  · intro e he
    have he' : e ∈ suggestLoop lines [] := (List.take_sublist _ _).subset he
    obtain ⟨hex, hlen, _⟩ := suggestLoop_mem lines [] e he'
    exact ⟨hex, hlen⟩
  · exact (List.take_sublist _ _).trans (suggestLoop_sublist lines [])

/-- Witness for `suggest_post_properties` at the spec's "Inception" scenario. -/
theorem suggest_post_properties_witness :
    (suggestPost ["1. Inception", "Inception", "The Matrix", "In"] 15).length ≤ 15
    ∧ 3 ≤ ("Inception" : String).length :=
  ⟨(suggest_post_properties ["1. Inception", "Inception", "The Matrix", "In"] 15).1,
   ((suggest_post_properties ["1. Inception", "Inception", "The Matrix", "In"] 15).2.2.1
      "Inception" (by decide)).2⟩

/-! ## Properties of the Plex-first partition pass (C5, C9) -/

theorem plexPass_present (env : ReconcileEnv) :
    ∀ recs seen, (plexPass env recs seen).1 = recs.filterMap (presentEntry env) := by
  intro recs
  induction recs with
  | nil => intro seen; simp [plexPass]
  | cons title rest ih =>
    intro seen
    cases hf : find_plex_movie_by_title env title with
    | error e =>
      simp only [plexPass, hf, List.filterMap_cons, presentEntry]
      by_cases hc : pyLower (pyStrip title) ≠ "" ∧ pyLower (pyStrip title) ∉ seen
      · simp only [if_pos hc]; exact ih _
      · simp only [if_neg hc]; exact ih _
    | ok o =>
      cases o with
      | some pm =>
        simp only [plexPass, hf, List.filterMap_cons, presentEntry]
        exact congrArg _ (ih _)
      | none =>
        simp only [plexPass, hf, List.filterMap_cons, presentEntry]
        by_cases hc : pyLower (pyStrip title) ≠ "" ∧ pyLower (pyStrip title) ∉ seen
        · simp only [if_pos hc]; exact ih _
        · simp only [if_neg hc]; exact ih _

theorem plexPass_missing_notin_seen (env : ReconcileEnv) :
    ∀ recs seen, ∀ u ∈ (plexPass env recs seen).2, pyLower u ∉ seen := by
  intro recs
  induction recs with
  | nil => intro seen u hu; simp [plexPass] at hu
  | cons title rest ih =>
    intro seen u hu
    cases hf : find_plex_movie_by_title env title with
    | error e =>
      rw [plexPass, hf] at hu
      by_cases hc : pyLower (pyStrip title) ≠ "" ∧ pyLower (pyStrip title) ∉ seen
      · rw [if_pos hc] at hu
        rcases List.mem_cons.mp hu with hu | hu
        · subst hu; exact hc.2
        · intro hmem
          exact ih (pyLower (pyStrip title) :: seen) u hu (List.mem_cons_of_mem _ hmem)
      · rw [if_neg hc] at hu; exact ih seen u hu
    | ok o =>
      cases o with
      | some pm =>
        rw [plexPass, hf] at hu
        exact ih seen u hu
      | none =>
        rw [plexPass, hf] at hu
        by_cases hc : pyLower (pyStrip title) ≠ "" ∧ pyLower (pyStrip title) ∉ seen
        · rw [if_pos hc] at hu
          rcases List.mem_cons.mp hu with hu | hu
          · subst hu; exact hc.2
          · intro hmem
            exact ih (pyLower (pyStrip title) :: seen) u hu (List.mem_cons_of_mem _ hmem)
        · rw [if_neg hc] at hu; exact ih seen u hu

theorem plexPass_missing_pairwise (env : ReconcileEnv) :
    ∀ recs seen, (plexPass env recs seen).2.Pairwise (fun a b => pyLower a ≠ pyLower b) := by
  intro recs
  induction recs with
  | nil => intro seen; simp [plexPass]
  | cons title rest ih =>
    intro seen
    cases hf : find_plex_movie_by_title env title with
    | error e =>
      rw [plexPass, hf]
      by_cases hc : pyLower (pyStrip title) ≠ "" ∧ pyLower (pyStrip title) ∉ seen
      · rw [if_pos hc]
        refine List.Pairwise.cons (fun b hb hcontra => ?_) (ih _)
        have := plexPass_missing_notin_seen env rest _ b hb
        exact this (hcontra ▸ List.mem_cons_self _ _)
      · rw [if_neg hc]; exact ih seen
    | ok o =>
      cases o with
      | some pm => rw [plexPass, hf]; exact ih seen
      | none =>
        rw [plexPass, hf]
        by_cases hc : pyLower (pyStrip title) ≠ "" ∧ pyLower (pyStrip title) ∉ seen
        · rw [if_pos hc]
          refine List.Pairwise.cons (fun b hb hcontra => ?_) (ih _)
          have := plexPass_missing_notin_seen env rest _ b hb
          exact this (hcontra ▸ List.mem_cons_self _ _)
        · rw [if_neg hc]; exact ih seen

theorem plexPass_missing_sublist (env : ReconcileEnv) :
    ∀ recs seen, (plexPass env recs seen).2.Sublist
      ((recs.filter (fun t => (presentEntry env t).isNone)).map pyStrip) := by
  intro recs
  induction recs with
  | nil => intro seen; simp [plexPass]
  | cons title rest ih =>
    intro seen
    cases hf : find_plex_movie_by_title env title with
    | error e =>
      rw [plexPass, hf]
      have hp : (presentEntry env title).isNone = true := by simp [presentEntry, hf]
      simp only [List.filter_cons, hp, if_pos, List.map_cons]
      by_cases hc : pyLower (pyStrip title) ≠ "" ∧ pyLower (pyStrip title) ∉ seen
      · rw [if_pos hc]
        exact (ih _).cons₂ _
      · rw [if_neg hc]
        exact (ih seen).cons _
    | ok o =>
      cases o with
      | some pm =>
        rw [plexPass, hf]
        have hp : (presentEntry env title).isNone = false := by simp [presentEntry, hf]
        simp only [List.filter_cons, hp]
        exact ih seen
      | none =>
        rw [plexPass, hf]
        have hp : (presentEntry env title).isNone = true := by simp [presentEntry, hf]
        simp only [List.filter_cons, hp, if_pos, List.map_cons]
        by_cases hc : pyLower (pyStrip title) ≠ "" ∧ pyLower (pyStrip title) ∉ seen
        · rw [if_pos hc]
          exact (ih _).cons₂ _
        · rw [if_neg hc]
          exact (ih seen).cons _

theorem plexPass_missing_covers (env : ReconcileEnv) :
    ∀ recs seen t, t ∈ recs → presentEntry env t = none →
      pyLower (pyStrip t) ≠ "" →
      pyLower (pyStrip t) ∈ seen
      ∨ ∃ u ∈ (plexPass env recs seen).2, pyLower u = pyLower (pyStrip t) := by
  intro recs
  induction recs with
  | nil => intro seen t ht; simp at ht
  | cons title rest ih =>
    intro seen t ht hnone hne
    rcases List.mem_cons.mp ht with ht | ht
    · subst ht
      cases hf : find_plex_movie_by_title env t with
      | error e =>
        rw [plexPass, hf]
        by_cases hc : pyLower (pyStrip t) ≠ "" ∧ pyLower (pyStrip t) ∉ seen
        · rw [if_pos hc]
          exact Or.inr ⟨pyStrip t, List.mem_cons_self _ _, rfl⟩
        · left
          rcases not_and_or.mp hc with h | h
          · exact absurd hne (fun _ => h hne)
          · exact not_not.mp h
      | ok o =>
        cases o with
        | some pm => exact absurd hnone (by simp [presentEntry, hf])
        | none =>
          rw [plexPass, hf]
          by_cases hc : pyLower (pyStrip t) ≠ "" ∧ pyLower (pyStrip t) ∉ seen
          · rw [if_pos hc]
            exact Or.inr ⟨pyStrip t, List.mem_cons_self _ _, rfl⟩
          · left
            rcases not_and_or.mp hc with h | h
            · exact absurd hne (fun _ => h hne)
            · exact not_not.mp h
    · cases hf : find_plex_movie_by_title env title with
      | error e =>
        rw [plexPass, hf]
        by_cases hc : pyLower (pyStrip title) ≠ "" ∧ pyLower (pyStrip title) ∉ seen
        · rw [if_pos hc]
          rcases ih (pyLower (pyStrip title) :: seen) t ht hnone hne with h | ⟨u, hu, hul⟩
          · rcases List.mem_cons.mp h with h | h
            · exact Or.inr ⟨pyStrip title, List.mem_cons_self _ _, h.symm⟩
            · exact Or.inl h
          · exact Or.inr ⟨u, List.mem_cons_of_mem _ hu, hul⟩
        · rw [if_neg hc]
          exact ih seen t ht hnone hne
      | ok o =>
        cases o with
        | some pm =>
          rw [plexPass, hf]
          exact ih seen t ht hnone hne
        | none =>
          rw [plexPass, hf]
          by_cases hc : pyLower (pyStrip title) ≠ "" ∧ pyLower (pyStrip title) ∉ seen
          · rw [if_pos hc]
            rcases ih (pyLower (pyStrip title) :: seen) t ht hnone hne with h | ⟨u, hu, hul⟩
            · rcases List.mem_cons.mp h with h | h
              · exact Or.inr ⟨pyStrip title, List.mem_cons_self _ _, h.symm⟩
              · exact Or.inl h
            · exact Or.inr ⟨u, List.mem_cons_of_mem _ hu, hul⟩
          · rw [if_neg hc]
            exact ih seen t ht hnone hne

theorem plexPass_count (env : ReconcileEnv) :
    ∀ recs seen,
      (∀ t ∈ recs, pyStrip t = t ∧ pyLower t ≠ "" ∧ pyLower t ∉ seen) →
      recs.Pairwise (fun a b => pyLower a ≠ pyLower b) →
      (plexPass env recs seen).1.length + (plexPass env recs seen).2.length
        = recs.length := by
  intro recs
  induction recs with
  | nil => intro seen _ _; simp [plexPass]
  | cons title rest ih =>
    intro seen hall hpw
    obtain ⟨hstrip, hne, hnotin⟩ := hall title (List.mem_cons_self _ _)
    have hrest : ∀ t ∈ rest, pyStrip t = t ∧ pyLower t ≠ "" ∧ pyLower t ∉ seen :=
      fun t ht => hall t (List.mem_cons_of_mem _ ht)
    have hpwrest : rest.Pairwise (fun a b => pyLower a ≠ pyLower b) :=
      List.Pairwise.of_cons hpw
    have hhead : ∀ t ∈ rest, pyLower title ≠ pyLower t :=
      fun t ht => List.rel_of_pairwise_cons hpw ht
    cases hf : find_plex_movie_by_title env title with
    | error e =>
      rw [plexPass, hf]
      have hc : pyLower (pyStrip title) ≠ "" ∧ pyLower (pyStrip title) ∉ seen := by
        rw [hstrip]; exact ⟨hne, hnotin⟩
      rw [if_pos hc]
      have : ∀ t ∈ rest, pyStrip t = t ∧ pyLower t ≠ ""
          ∧ pyLower t ∉ pyLower (pyStrip title) :: seen := by
        intro t ht
        obtain ⟨h1, h2, h3⟩ := hrest t ht
        refine ⟨h1, h2, fun hc2 => ?_⟩
        rcases List.mem_cons.mp hc2 with hc2 | hc2
        · rw [hstrip] at hc2
          exact hhead t ht hc2.symm
        · exact h3 hc2
      have := ih (pyLower (pyStrip title) :: seen) this hpwrest
      simp only [List.length_cons]
      omega
    | ok o =>
      cases o with
      | some pm =>
        rw [plexPass, hf]
        have := ih seen hrest hpwrest
        simp only [List.length_cons]
        omega
      | none =>
        rw [plexPass, hf]
        have hc : pyLower (pyStrip title) ≠ "" ∧ pyLower (pyStrip title) ∉ seen := by
          rw [hstrip]; exact ⟨hne, hnotin⟩
        rw [if_pos hc]
        have : ∀ t ∈ rest, pyStrip t = t ∧ pyLower t ≠ ""
            ∧ pyLower t ∉ pyLower (pyStrip title) :: seen := by
          intro t ht
          obtain ⟨h1, h2, h3⟩ := hrest t ht
          refine ⟨h1, h2, fun hc2 => ?_⟩
          rcases List.mem_cons.mp hc2 with hc2 | hc2
          · rw [hstrip] at hc2
            exact hhead t ht hc2.symm
          · exact h3 hc2
        have := ih (pyLower (pyStrip title) :: seen) this hpwrest
        simp only [List.length_cons]
        omega

/-! ## Concrete environments used by the witnesses -/

/-! ## C5 -/

/-- C5: the lookup pass partitions the candidate list: the `present` bucket
is exactly the candidates whose lookup found a movie, as entries, in
encounter order (`filterMap`); the `missing` bucket is pairwise distinct
case-insensitively, is a sublist of the stripped not-found candidates in
first-encounter order, and covers every not-found candidate with a nonempty
key — including candidates whose lookup raised, since `presentEntry` is
`none` in the error case, so an error routes to `missing` rather than
aborting the batch (`plexPass` is total). -/
theorem plex_lookup_partition (env : ReconcileEnv) (recs : List String)
    (t : String) (ht : t ∈ recs) (hmiss : presentEntry env t = none)
    (hne : pyLower (pyStrip t) ≠ "") :
    (plexPass env recs []).1 = recs.filterMap (presentEntry env)
    ∧ (plexPass env recs []).2.Pairwise (fun a b => pyLower a ≠ pyLower b)
    ∧ (plexPass env recs []).2.Sublist
        ((recs.filter (fun u => (presentEntry env u).isNone)).map pyStrip)
    ∧ ∃ u ∈ (plexPass env recs []).2, pyLower u = pyLower (pyStrip t) := by
  refine ⟨plexPass_present env recs [], plexPass_missing_pairwise env recs [],
    plexPass_missing_sublist env recs [], ?_⟩
  rcases plexPass_missing_covers env recs [] t ht hmiss hne with h | h
  · simp at h
  · exact h

/-- Witness for `plex_lookup_partition`: "Paprika"'s lookup raises and it is
routed to the missing bucket, while "The Matrix" lands in `present`. -/
theorem plex_lookup_partition_witness :
    (plexPass envMatrixOnly ["The Matrix", "Paprika"] []).1
      = ["The Matrix", "Paprika"].filterMap (presentEntry envMatrixOnly) :=
  (plex_lookup_partition envMatrixOnly ["The Matrix", "Paprika"] "Paprika"
    (by decide) rfl (by decide)).1

/-! ## C1 -/

/-- C1: when the set of library-present matches is empty (for any reason,
including every lookup raising transiently), both flavors' reconcile runs
skip the snapshot write entirely: the run succeeds, the snapshot contents are
returned unchanged, and the stats report `saved_to_json = false`. -/
theorem reconcile_empty_present_skips_write (env : ReconcileEnv)
    (snap1 snap2 : Option (List CollEntry)) (movie_name : String)
    (recs1 recs2 : List String) (max_results : Nat)
    (h1 : get_related_movies env movie_name 15 = .ok recs1)
    (hp1 : (plexPass env recs1 []).1 = [])
    (h2 : get_contrast_movies env movie_name max_results = .ok recs2)
    (hp2 : (plexPass env recs2 []).1 = []) :
    (run_recently_watched_playlist env snap1 movie_name).map
        (fun p => (p.1.saved_to_json, p.2)) = .ok (false, snap1)
    ∧ (run_change_of_taste_collection env snap2 movie_name max_results).map
        (fun p => (p.1.saved_to_json, p.2)) = .ok (false, snap2) := by
  constructor
  · simp [run_recently_watched_playlist, h1, hp1, Except.map]
  · simp [run_change_of_taste_collection, h2, hp2, Except.map]

/-- Witness for `reconcile_empty_present_skips_write`: every lookup raises,
so `present` is empty; the prior snapshot survives and `saved_to_json` is
`false` for both flavors (the write oracle would even fail if called). -/
theorem reconcile_empty_present_skips_write_witness :
    (run_recently_watched_playlist envAllError (some prevSnap) "Inception").map
        (fun p => (p.1.saved_to_json, p.2)) = .ok (false, some prevSnap)
    ∧ (run_change_of_taste_collection envAllError (some prevSnap) "Inception" 15).map
        (fun p => (p.1.saved_to_json, p.2)) = .ok (false, some prevSnap) :=
  reconcile_empty_present_skips_write envAllError (some prevSnap) (some prevSnap)
    "Inception" ["The Matrix", "Paprika"] ["The Matrix", "Paprika"] 15
    rfl rfl rfl rfl

/-! ## C4 -/

/-- C4: once suggestions are obtained and any needed snapshot write has
succeeded, the reconcile run of either flavor returns `.ok` with
`found_in_plex` and `missing_in_plex` equal to the sizes of the lookup
partition, for an arbitrary outcome of the Acquisition Requester call
(`env.radarr` is universally quantified, so in particular a raised exception
is caught and does not fail the run). -/
theorem reconcile_tolerates_radarr_failure (env : ReconcileEnv)
    (snap1 snap2 : Option (List CollEntry)) (movie_name : String)
    (recs1 recs2 : List String) (max_results : Nat)
    (h1 : get_related_movies env movie_name 15 = .ok recs1)
    (hw1 : (plexPass env recs1 []).1 ≠ [] →
      env.writeJson JSON_FILE_recent (plexPass env recs1 []).1 = .ok ())
    (h2 : get_contrast_movies env movie_name max_results = .ok recs2)
    (hw2 : (plexPass env recs2 []).1 ≠ [] →
      env.writeJson JSON_FILE_change (plexPass env recs2 []).1 = .ok ()) :
    (run_recently_watched_playlist env snap1 movie_name).map
        (fun p => (p.1.found_in_plex, p.1.missing_in_plex))
      = .ok ((plexPass env recs1 []).1.length, (plexPass env recs1 []).2.length)
    ∧ (run_change_of_taste_collection env snap2 movie_name max_results).map
        (fun p => (p.1.found_in_plex, p.1.missing_in_plex))
      = .ok ((plexPass env recs2 []).1.length,
             (dedupMissing (plexPass env recs2 []).2 []).length) := by
  constructor
  · by_cases he : (plexPass env recs1 []).1 = []
    · simp [run_recently_watched_playlist, h1, he, Except.map]
    · have hw := hw1 he
      have he' : (plexPass env recs1 []).1.isEmpty = false := by
        simpa using he
      simp [run_recently_watched_playlist, h1, he', hw, Except.map]
  · by_cases he : (plexPass env recs2 []).1 = []
    · simp [run_change_of_taste_collection, h2, he, Except.map]
    · have hw := hw2 he
      have he' : (plexPass env recs2 []).1.isEmpty = false := by
        simpa using he
      simp [run_change_of_taste_collection, h2, he', hw, Except.map]

/-- Witness for `reconcile_tolerates_radarr_failure`: the Radarr call fails
(`envMatrixOnly.radarr` always errors) yet both runs return their counts. -/
theorem reconcile_tolerates_radarr_failure_witness :
    (run_recently_watched_playlist envMatrixOnly none "Inception").map
        (fun p => (p.1.found_in_plex, p.1.missing_in_plex))
      = .ok ((plexPass envMatrixOnly ["The Matrix", "Paprika"] []).1.length,
             (plexPass envMatrixOnly ["The Matrix", "Paprika"] []).2.length)
    ∧ (run_change_of_taste_collection envMatrixOnly none "Inception" 15).map
        (fun p => (p.1.found_in_plex, p.1.missing_in_plex))
      = .ok ((plexPass envMatrixOnly ["The Matrix", "Paprika"] []).1.length,
             (dedupMissing (plexPass envMatrixOnly ["The Matrix", "Paprika"] []).2 []).length) :=
  reconcile_tolerates_radarr_failure envMatrixOnly none none "Inception"
    ["The Matrix", "Paprika"] ["The Matrix", "Paprika"] 15
    rfl (fun _ => rfl) rfl (fun _ => rfl)

/-! ## C9 -/

theorem run_recent_counts_or_error (env : ReconcileEnv)
    (snapshot : Option (List CollEntry)) (movie_name : String)
    (recs : List String)
    (h : get_related_movies env movie_name 15 = .ok recs) :
    (run_recently_watched_playlist env snapshot movie_name).map
        (fun p => (p.1.found_in_plex, p.1.missing_in_plex))
      = .ok ((plexPass env recs []).1.length, (plexPass env recs []).2.length)
    ∨ ∃ e, run_recently_watched_playlist env snapshot movie_name = .error e := by
  by_cases he : (plexPass env recs []).1 = []
  · left
    simp [run_recently_watched_playlist, h, he, Except.map]
  · have he' : (plexPass env recs []).1.isEmpty = false := by simpa using he
    cases hw : env.writeJson JSON_FILE_recent (plexPass env recs []).1 with
    | ok u =>
      left
      cases u
      simp [run_recently_watched_playlist, h, he', hw, Except.map]
    | error e =>
      right
      exact ⟨e, by simp [run_recently_watched_playlist, h, he', hw]⟩

/-- C9: for every reconcile run of the recently-watched flavor that returns
stats, `found_in_plex + missing_in_plex` equals the number of suggestions
processed, and both counts are at most 15.  This rests on the suggestions
being strip-fixed, nonempty and pairwise distinct case-insensitively, so the
missing-bucket dedup never collapses two distinct suggestions. -/
theorem reconcile_counts_partition (env : ReconcileEnv)
    (snapshot snap' : Option (List CollEntry)) (movie_name : String)
    (lines : List String) (stats : RunStats)
    (hchat : env.chatRelated movie_name = .ok lines)
    (hrun : run_recently_watched_playlist env snapshot movie_name
      = .ok (stats, snap')) :
    stats.found_in_plex + stats.missing_in_plex = (suggestPost lines 15).length
    ∧ stats.found_in_plex ≤ 15 ∧ stats.missing_in_plex ≤ 15 := by
  have hall : ∀ t ∈ suggestPost lines 15,
      pyStrip t = t ∧ pyLower t ≠ "" ∧ pyLower t ∉ ([] : List String) := by
    intro t ht
    have ht' : t ∈ suggestLoop lines [] := (List.take_sublist _ _).subset ht
    obtain ⟨⟨l, _, hel⟩, hlen, _⟩ := suggestLoop_mem lines [] t ht'
    refine ⟨?_, ?_, List.not_mem_nil _⟩
    · rw [hel]; exact normalize_title_strip_fixed l
    · exact pyLower_ne_empty (length_ge_ne_empty hlen)
  have hpw : (suggestPost lines 15).Pairwise (fun a b => pyLower a ≠ pyLower b) :=
    (suggestLoop_pairwise lines []).sublist (List.take_sublist _ _)
  have hcount := plexPass_count env (suggestPost lines 15) [] hall hpw
  have hbound : (suggestPost lines 15).length ≤ 15 := List.length_take_le _ _
  have hrecs : get_related_movies env movie_name 15 = .ok (suggestPost lines 15) := by
    simp [get_related_movies, hchat]
  rcases run_recent_counts_or_error env snapshot movie_name _ hrecs with hmap | ⟨e, herr⟩
  · rw [hrun] at hmap
    simp only [Except.map, Except.ok.injEq, Prod.mk.injEq] at hmap
    obtain ⟨hf, hm⟩ := hmap
    rw [hf, hm]
    omega
  · rw [herr] at hrun
    exact absurd hrun (by simp)

/-- Witness for `reconcile_counts_partition`: 2 suggestions, 1 found, 1
missing. -/
theorem reconcile_counts_partition_witness :
    (1 : Nat) + 1 = (suggestPost ["The Matrix", "Paprika"] 15).length
    ∧ (1 : Nat) ≤ 15 ∧ (1 : Nat) ≤ 15 :=
  reconcile_counts_partition envMatrixOnly none
    (some [{ title := "The Matrix", rating_key := "123", year := some 1999 }])
    "Inception" ["The Matrix", "Paprika"] ⟨1, 1, true, 0⟩ rfl rfl

/-! ## C3 -/

/-- Counterexample to C3 as stated: when the per-title existence lookup
`radarr_find_movie` raises a network error for the first title, the loop in
`radarr_process_missing_titles` aborts — the exception propagates to the
caller (`some "connection error"`) and the remaining title "Akira" is never
processed (the completed-title list is empty), because the lookup at
`radarr_utils.py:144` sits outside both `try` blocks. -/
theorem radarr_batch_aborts_on_find_error :
    radarr_process_missing_titles radarrEnvDown ["Paprika", "Akira"]
      ["movies", "due-to-previously-watched"]
    = ([], some "connection error") := rfl

theorem processOneTitle_no_raise (env : RadarrEnv) (catalog : List RMovie)
    (t : String) (tag_names : List String)
    (hcat : env.getAllMovies = .ok catalog) :
    (processOneTitle env t tag_names).2 = none := by
  cases hf : catalog.find? (fun m => pyLower m.title == pyLower t) with
  | none => simp [processOneTitle, radarr_find_movie, hcat, hf]
  | some m => simp [processOneTitle, radarr_find_movie, hcat, hf]

/-- C3 amended: provided the per-title catalog existence lookup succeeds
(`getAllMovies` returns), any failure inside the monitored-update or
add-and-search step for a single title is caught and logged, the call does
not raise, and every title in the list completes its iteration. (A failure
of the existence lookup itself, by contrast, aborts the batch.) -/
theorem radarr_process_catches_action_failures (env : RadarrEnv)
    (catalog : List RMovie) (titles tag_names : List String)
    (hcat : env.getAllMovies = .ok catalog) :
    (radarr_process_missing_titles env titles tag_names).2 = none
    ∧ (radarr_process_missing_titles env titles tag_names).1.map Prod.fst
        = titles := by
  induction titles with
  | nil => simp [radarr_process_missing_titles]
  | cons t rest ih =>
    have hone : (processOneTitle env t tag_names).2 = none :=
      processOneTitle_no_raise env catalog t tag_names hcat
    obtain ⟨ih1, ih2⟩ := ih
    rcases hpt : processOneTitle env t tag_names with ⟨effs, err⟩
    have herr : err = none := by rw [hpt] at hone; exact hone
    subst herr
    simp [radarr_process_missing_titles, hpt, ih1, ih2]

theorem radarr_process_catches_action_failures_witness :
    (radarr_process_missing_titles radarrEnvFlaky ["Paprika", "Akira"]
      ["movies", "due-to-previously-watched"]).2 = none
    ∧ (radarr_process_missing_titles radarrEnvFlaky ["Paprika", "Akira"]
        ["movies", "due-to-previously-watched"]).1.map Prod.fst
      = ["Paprika", "Akira"] :=
  radarr_process_catches_action_failures radarrEnvFlaky [paprikaMovie]
    ["Paprika", "Akira"] ["movies", "due-to-previously-watched"] rfl

/-! ## C6 -/

theorem get_or_create_tag_no_post (env : RadarrEnv) (n : String) :
    ∀ e ∈ (get_or_create_tag env n).1, e.isPostMovie = false := by
  intro e he
  cases hT : env.getTags with
  | error x => simp [get_or_create_tag, hT] at he
  | ok tags =>
    cases hf : tags.find? (fun t => pyLower t.label == pyLower n) with
    | some t => simp [get_or_create_tag, hT, hf] at he
    | none =>
      simp only [get_or_create_tag, hT, hf, List.mem_singleton] at he
      subst he
      rfl

theorem resolveTags_no_post (env : RadarrEnv) :
    ∀ tag_names, ∀ e ∈ (resolveTags env tag_names).1, e.isPostMovie = false := by
  intro tag_names
  induction tag_names with
  | nil => intro e he; simp [resolveTags] at he
  | cons n rest ih =>
    intro e he
    simp only [resolveTags] at he
    rcases hg : get_or_create_tag env n with ⟨e1, res1⟩
    rw [hg] at he
    have hfirst : e ∈ e1 → e.isPostMovie = false := by
      intro h1
      apply get_or_create_tag_no_post env n e
      rw [hg]
      exact h1
    cases res1 with
    | error x => exact hfirst he
    | ok i =>
      rcases hr : resolveTags env rest with ⟨e2, res2⟩
      rw [hr] at he
      have hsecond : e ∈ e2 → e.isPostMovie = false := by
        intro h2
        apply ih e
        rw [hr]
        exact h2
      cases res2 with
      | error x =>
        rcases List.mem_append.mp he with he | he
        · exact hfirst he
        · exact hsecond he
      | ok ids =>
        rcases List.mem_append.mp he with he | he
        · exact hfirst he
        · exact hsecond he

theorem set_monitored_trace (env : RadarrEnv) (m : RMovie) :
    (radarr_set_monitored env m true).1 = monitorEffects m := by
  cases hm : m.monitored with
  | true => simp [radarr_set_monitored, monitorEffects, hm]
  | false => simp [radarr_set_monitored, monitorEffects, hm]

/-- C6: if an item with the processed title already exists in the catalog
(case-insensitively), or an item with the resolved external metadata id
already exists, the per-title step issues no `POST /movie` (no new catalog
entry): it issues exactly the monitored-update `PUT` for the existing item —
nothing at all if it is already monitored — plus, in the by-id case, only
the tag-resolution effects, none of which creates a catalog entry. -/
theorem radarr_no_duplicate_create (env : RadarrEnv) (catalog : List RMovie)
    (title : String) (tag_names : List String) (m : RMovie)
    (hcat : env.getAllMovies = .ok catalog) :
    (catalog.find? (fun mm => pyLower mm.title == pyLower title) = some m →
      processOneTitle env title tag_names = (monitorEffects m, none))
    ∧ (∀ tagEffs tag_ids rt tid yr i,
        catalog.find? (fun mm => pyLower mm.title == pyLower title) = none →
        resolveTags env tag_names = (tagEffs, .ok tag_ids) →
        resolveMovieInfo env title = .ok (some (rt, tid, yr)) →
        truthyId tid = some i →
        catalog.find? (fun mm => mm.tmdbId == some i) = some m →
        processOneTitle env title tag_names = (tagEffs ++ monitorEffects m, none)
        ∧ ∀ e ∈ tagEffs, e.isPostMovie = false)
    ∧ (∀ e ∈ monitorEffects m, e.isPostMovie = false) := by
  refine ⟨?_, ?_, ?_⟩
  · intro hfind
    simp only [processOneTitle, radarr_find_movie, hcat, hfind]
    rw [set_monitored_trace]
  · intro tagEffs tag_ids rt tid yr i hfind htags hinfo htruthy hbyid
    constructor
    · simp only [processOneTitle, radarr_find_movie, hcat, hfind,
        radarr_add_and_search, htags, hinfo, htruthy,
        radarr_find_movie_by_tmdb_id, hbyid]
      rw [set_monitored_trace]
    · intro e he
      exact resolveTags_no_post env tag_names e (htags ▸ he)
  · intro e he
    simp only [monitorEffects] at he
    cases hm : m.monitored with
    | true => rw [hm] at he; simp at he
    | false =>
      rw [hm] at he
      simp at he
      subst he
      rfl

/-- Witness for `radarr_no_duplicate_create`: the spec's scenario — "Paprika"
already in the catalog unmonitored — takes the monitored-update path, not
the create path. -/
theorem radarr_no_duplicate_create_witness :
    processOneTitle radarrPaprikaEnv "Paprika" ["movies"]
      = (monitorEffects paprikaMovie, none) :=
  (radarr_no_duplicate_create radarrPaprikaEnv [paprikaMovie] "Paprika"
    ["movies"] paprikaMovie rfl).1 rfl

/-! ## C7 -/

/-- C7: invoked with `dry_run = true`, `apply_collection_to_plex` issues no
Plex mutation (empty effect trace — no removal, no collection creation, no
item addition) and reports the would-be counts: `added` is the number of
snapshot records that resolved to movie-kind items, plus the failed and
filtered counts from the same resolution pass. -/
theorem refresher_dry_run_no_mutation (env : RefEnv) (collection_name : String)
    (movies : List JsonEntry) :
    (apply_collection_to_plex env collection_name movies true).2 = []
    ∧ (apply_collection_to_plex env collection_name movies true).1
      = { added := (fetchLoop env movies).1.length,
          failed := (fetchLoop env movies).2.1.length,
          filtered := (fetchLoop env movies).2.2.length } := by
  by_cases hm : movies = []
  · subst hm
    simp [apply_collection_to_plex, fetchLoop]
  · by_cases hv : (fetchLoop env movies).1 = []
    · simp [apply_collection_to_plex, hm, hv]
    · simp [apply_collection_to_plex, hm, hv]

/-! ## C8 -/

/-- C8: once the refresher's setup (config load, Plex connection, section
load) succeeds, `main` returns exit code 0 together with the aggregate of
the per-collection loop; and a collection whose snapshot file is missing,
unparseable or not a JSON array is skipped — the loop's result is that of
the remaining collections, so processing continues. -/
theorem refresher_skips_bad_snapshots (env : RefEnv) (dry_run : Bool)
    (hconf : env.loadConfig = .ok ()) (hconn : env.connectPlex = .ok ())
    (hsect : env.loadSection = .ok ()) :
    refresher_main env dry_run = (0, processCollections env dry_run COLLECTIONS)
    ∧ ∀ collection_name json_file rest,
        (env.readFile json_file = .missing ∨ env.readFile json_file = .invalid
          ∨ env.readFile json_file = .content .nonArray) →
        processCollections env dry_run ((collection_name, json_file) :: rest)
          = processCollections env dry_run rest := by
  constructor
  · simp [refresher_main, hconf, hconn, hsect]
  · intro name file rest hbad
    rcases hbad with h | h | h <;>
      simp [processCollections, load_collection_json, h]

/-- Witness for `refresher_skips_bad_snapshots`: the first configured
collection's snapshot is missing; it is skipped, the run still exits 0. -/
theorem refresher_skips_bad_snapshots_witness :
    refresher_main refEnvW true = (0, processCollections refEnvW true COLLECTIONS)
    ∧ processCollections refEnvW true
        (("Based on your recently watched movie", "recently_watched_collection.json")
          :: [("Change of Taste", "change_of_taste_collection.json")])
      = processCollections refEnvW true
          [("Change of Taste", "change_of_taste_collection.json")] :=
  ⟨(refresher_skips_bad_snapshots refEnvW true rfl rfl rfl).1,
   (refresher_skips_bad_snapshots refEnvW true rfl rfl rfl).2 _ _ _ (Or.inl rfl)⟩

/-! ## C10 -/

/-- C10: when both flavors' reconcile runs succeed, the CLI entry point
returns exit code 0 whatever the chained refresher does — `env.refresher`
(nonzero exit code, raised exception, or interrupt) and the feature flag are
universally quantified and never influence the returned code. -/
theorem cli_exit_zero_despite_refresher (env : CliEnv) (config : CliConfig)
    (s1 s2 : RunStats)
    (hargs : 2 ≤ env.argv.length)
    (hconf : env.loadConfig = .ok config)
    (hrec : env.runRecent ((env.argv.get? 1).getD "") = .ok s1)
    (hchg : env.runChange ((env.argv.get? 1).getD "") = .ok s2) :
    cli_main env = 0 := by
  have hlt : ¬ env.argv.length < 2 := by omega
  simp only [List.get?_eq_getElem?] at hrec hchg
  by_cases hr : config.runRefresher <;>
    cases henv : env.refresher <;>
      simp [cli_main, hlt, hconf, hrec, hchg, hr, henv]

/-- Witness for `cli_exit_zero_despite_refresher`: the chained refresher is
enabled and raises, yet the exit code is 0. -/
theorem cli_exit_zero_despite_refresher_witness : cli_main cliEnvW = 0 :=
  cli_exit_zero_despite_refresher cliEnvW ⟨true⟩ ⟨1, 1, true, 0⟩ ⟨0, 2, false, 2⟩
    (by decide) rfl rfl rfl
